import Mathlib

/-!
Shallow embedding of the Xpense backend core (goal queue and contribution
allocator, level engine, placement-grid token economy, veto court, streak
tracker) together with theorems settling the specification claims.

Conventions of the embedding:
* money amounts are rationals (the Python code uses numbers produced by
  float(...) arithmetic; all inputs relevant here are exactly representable);
* timestamps and calendar days are integers (a datetime is only ever
  compared, stored, or truncated to a date in the modelled code);
* MongoDB documents become Lean structures, a collection is a list of
  documents, and an update_one by id is a map over that list;
* Python code that raises an uncaught exception inside a Flask route body
  is modelled by the error outcome the route's except-handler produces.
-/

/-- Status values stored in the goals collection (goal.py line 37). -/
inductive GoalStatus where
  | active
  | completed
  | paused
  | queued
  | pending
  | archived
deriving DecidableEq, Repr

/-- One document of the goals collection, with the fields used by
Goal.contribute, Goal.create_goal, Goal._activate_next_goal and the
contribute route (goal.py lines 26-44). Timestamps that the modelled code
only writes and never reads (updated_at, created_at) are omitted. -/
structure GoalDoc where
  id : Nat
  user_id : Nat
  target_amount : ℚ
  current_amount : ℚ
  total_levels : Nat
  current_level : Nat
  daily_target : ℚ
  level_thresholds : List ℚ
  status : GoalStatus
  order : ℤ
  completed_at : Option ℤ
deriving DecidableEq, Repr

/-- The level-recomputation loop of Goal.contribute (goal.py lines 104-111):
starting from the stored level, walk the thresholds in order, setting the
level to index+1 while the new amount reaches the threshold, and stop at
the first threshold it does not reach. -/
def new_level_scan (amt : ℚ) (lvl : Nat) (i : Nat) : List ℚ → Nat
  | [] => lvl
  | t :: rest => if t ≤ amt then new_level_scan amt (i + 1) (i + 1) rest else lvl

/-- Goal.contribute on a single goal document (goal.py lines 88-134, without
the collection lookup and write-back): caps the applied amount at the
target, recomputes the level, marks completion, and returns the updated
document together with the remainder handed back to the caller. The guard
on the thresholds list mirrors the Python truthiness test on line 106. -/
def contribute_goal (g : GoalDoc) (amount : ℚ) (now : ℤ) : GoalDoc × ℚ :=
  let target := g.target_amount
  let current := g.current_amount
  let amount_to_add := min amount (max 0 (target - current))
  let remainder := amount - amount_to_add
  let new_amount := current + amount_to_add
  let new_level :=
    if g.level_thresholds = [] then g.current_level
    else new_level_scan new_amount g.current_level 0 g.level_thresholds
  let st := if target ≤ new_amount then GoalStatus.completed else g.status
  let comp := if target ≤ new_amount then some now else g.completed_at
  ({ g with
      current_amount := new_amount
      current_level := new_level
      status := st
      completed_at := comp }, remainder)

/-- The document inserted by Goal.create_goal (goal.py lines 26-43): fresh
goals carry zero progress, ten total levels, level zero, an empty
thresholds list, no completion timestamp, and are queued exactly when the
user already has an active goal. -/
def create_goal_doc (gid uid : Nat) (target : ℚ) (has_active : Bool)
    (next_order : ℤ) : GoalDoc :=
  { id := gid
    user_id := uid
    target_amount := target
    current_amount := 0
    total_levels := 10
    current_level := 0
    daily_target := 0
    level_thresholds := []
    status := if has_active then GoalStatus.queued else GoalStatus.active
    order := next_order
    completed_at := none }

/-- Goal.set_level_system (goal.py lines 136-151) as a document update: it
overwrites total_levels, level_thresholds and daily_target, and touches
nothing else (in particular not current_level). -/
def set_level_system_doc (g : GoalDoc) (total : Nat) (ths : List ℚ)
    (daily : ℚ) : GoalDoc :=
  { g with total_levels := total, level_thresholds := ths, daily_target := daily }

/-- C1: for every goal with positive remaining capacity and every
contribution strictly exceeding it, contribute applies exactly the
remaining amount (current_amount becomes target_amount), marks the goal
completed, stamps completed_at, and returns the excess to the caller. -/
theorem contribute_overfill_caps_and_spills (g : GoalDoc) (amount : ℚ) (now : ℤ)
    (hrem : 0 < g.target_amount - g.current_amount)
    (hamt : g.target_amount - g.current_amount < amount) :
    (contribute_goal g amount now).1.current_amount = g.target_amount ∧
    (contribute_goal g amount now).1.status = GoalStatus.completed ∧
    (contribute_goal g amount now).1.completed_at = some now ∧
    (contribute_goal g amount now).2 = amount - (g.target_amount - g.current_amount) := by
  have hmax : max 0 (g.target_amount - g.current_amount) = g.target_amount - g.current_amount :=
    max_eq_right hrem.le
  have hmin : min amount (g.target_amount - g.current_amount) = g.target_amount - g.current_amount :=
    min_eq_right hamt.le
  have hnew : g.current_amount + (g.target_amount - g.current_amount) = g.target_amount := by ring
  simp only [contribute_goal, hmax, hmin, hnew, le_refl, if_true]
  exact ⟨trivial, trivial, trivial, trivial⟩

/-- Witness for C1 at a concrete goal: target 10, current 0, contribution 30. -/
theorem contribute_overfill_caps_and_spills_witness :
    let g : GoalDoc :=
      { id := 1, user_id := 7, target_amount := 10, current_amount := 0,
        total_levels := 10, current_level := 0, daily_target := 0,
        level_thresholds := [], status := GoalStatus.active, order := 0,
        completed_at := none }
    (contribute_goal g 30 5).1.current_amount = g.target_amount ∧
    (contribute_goal g 30 5).1.status = GoalStatus.completed ∧
    (contribute_goal g 30 5).1.completed_at = some 5 ∧
    (contribute_goal g 30 5).2 = 30 - (g.target_amount - g.current_amount) :=
  contribute_overfill_caps_and_spills _ 30 5 (by norm_num) (by norm_num)

/-- C4 counterexample: a goal that is already completed (amount at target,
completed_at stamped at time 5) is contributed to again at time 9; the
stored completed_at moves to 9, so it is not unchanged by subsequent
operations. The completion branch of contribute (goal.py lines 116-118)
re-stamps completed_at whenever the new amount reaches the target, with no
check that the goal was not already completed. -/
theorem completed_at_overwritten_counterexample :
    let g : GoalDoc :=
      { id := 1, user_id := 7, target_amount := 10, current_amount := 10,
        total_levels := 10, current_level := 0, daily_target := 0,
        level_thresholds := [], status := GoalStatus.completed, order := 0,
        completed_at := some 5 }
    g.status = GoalStatus.completed ∧
    (contribute_goal g 7 9).1.completed_at ≠ g.completed_at := by
  refine ⟨rfl, ?_⟩
  norm_num [contribute_goal]

/-- C4 amended: contribute stamps completed_at with the current time on
every call whose resulting amount reaches the target, including calls on a
goal that is already completed (whose amount already equals the target),
so a later contribution overwrites the stored completed_at with the later
time; the field is never cleared back to none by contribute. -/
theorem contribute_completed_restamps_completed_at (g : GoalDoc) (amount : ℚ) (now : ℤ)
    (hfull : g.current_amount = g.target_amount) (hamt : 0 ≤ amount) :
    (contribute_goal g amount now).1.completed_at = some now ∧
    (contribute_goal g amount now).1.status = GoalStatus.completed := by
  have hmin : min amount (0 : ℚ) = 0 := min_eq_right hamt
  simp only [contribute_goal, hfull, sub_self, max_self, hmin, add_zero, le_refl, if_true]
  exact ⟨trivial, trivial⟩

/-- Witness for the amended C4 at a concrete completed goal. -/
theorem contribute_completed_restamps_completed_at_witness :
    let g : GoalDoc :=
      { id := 1, user_id := 7, target_amount := 10, current_amount := 10,
        total_levels := 10, current_level := 0, daily_target := 0,
        level_thresholds := [], status := GoalStatus.completed, order := 0,
        completed_at := some 5 }
    (contribute_goal g 7 9).1.completed_at = some 9 ∧
    (contribute_goal g 7 9).1.status = GoalStatus.completed :=
  contribute_completed_restamps_completed_at _ 7 9 (by norm_num) (by norm_num)

/-- C10: with an empty thresholds list, contribute leaves the stored level
untouched (the level loop at goal.py lines 106-111 only runs over a
non-empty list), even when the contribution completes the goal, and
Goal.create_goal always inserts level_thresholds = [] and current_level = 0
(goal.py lines 34 and 36); only set_level_system later fills thresholds. -/
theorem empty_thresholds_level_frame (g : GoalDoc) (amount : ℚ) (now : ℤ)
    (h : g.level_thresholds = [])
    (gid uid : Nat) (target : ℚ) (has_active : Bool) (next_order : ℤ) :
    (contribute_goal g amount now).1.current_level = g.current_level ∧
    (create_goal_doc gid uid target has_active next_order).level_thresholds = [] ∧
    (create_goal_doc gid uid target has_active next_order).current_level = 0 := by
  simp [contribute_goal, create_goal_doc, h]

/-- Witness for C10 at a concrete goal completed by the contribution. -/
theorem empty_thresholds_level_frame_witness :
    let g : GoalDoc :=
      { id := 1, user_id := 7, target_amount := 10, current_amount := 0,
        total_levels := 10, current_level := 0, daily_target := 0,
        level_thresholds := [], status := GoalStatus.active, order := 0,
        completed_at := none }
    (contribute_goal g 30 5).1.current_level = g.current_level ∧
    (create_goal_doc 2 7 50 true 1).level_thresholds = [] ∧
    (create_goal_doc 2 7 50 true 1).current_level = 0 :=
  empty_thresholds_level_frame _ 30 5 rfl 2 7 50 true 1

/-- Lookup of a goal document by id (Goal.get_goal_by_id, goal.py lines 57-61). -/
def find_goal (db : List GoalDoc) (gid : Nat) : Option GoalDoc :=
  db.find? (fun g => g.id == gid)

/-- A MongoDB update_one keyed by goal id applied to the collection. -/
def update_goal_doc (db : List GoalDoc) (gid : Nat) (f : GoalDoc → GoalDoc) :
    List GoalDoc :=
  db.map (fun g => if g.id == gid then f g else g)

/-- The find_one of Goal._activate_next_goal (goal.py lines 77-80): among the
user's goals with order strictly greater than the completed goal's order and
status queued or paused, the one with the smallest order. -/
def next_goal_candidate (db : List GoalDoc) (uid : Nat) (after : ℤ) :
    Option GoalDoc :=
  (db.filter (fun g =>
      g.user_id == uid && decide (after < g.order) &&
      (g.status == GoalStatus.queued || g.status == GoalStatus.paused))).foldl
    (fun acc g =>
      match acc with
      | none => some g
      | some m => if g.order < m.order then some g else acc) none

/-- Goal._activate_next_goal (goal.py lines 73-86): promote the candidate, if
any, to active. -/
def activate_next_goal (db : List GoalDoc) (uid : Nat) (after : ℤ) :
    List GoalDoc :=
  match next_goal_candidate db uid after with
  | none => db
  | some ng => update_goal_doc db ng.id (fun g => { g with status := GoalStatus.active })

/-- Goal.contribute acting on the collection (goal.py lines 88-134): look the
goal up (returning the flag false and the whole amount when it is missing,
as the Python returns (None, amount)), write the updated document back, and
promote the next queued or paused goal when the written status is completed. -/
def contribute_store (db : List GoalDoc) (gid : Nat) (amount : ℚ) (now : ℤ) :
    List GoalDoc × Bool × ℚ :=
  match find_goal db gid with
  | none => (db, false, amount)
  | some g =>
    let step := contribute_goal g amount now
    let db1 := update_goal_doc db gid (fun _ => step.1)
    let db2 :=
      if step.1.status = GoalStatus.completed then activate_next_goal db1 g.user_id g.order
      else db1
    (db2, true, step.2)

/-- Outcome of the contribute route, as produced by app.py lines 517-614. -/
inductive ContributeOutcome where
  | invalidAmount
  | notFound
  | unauthorized
  | serverError
  | ok (amount_left : ℚ)
deriving DecidableEq, Repr

/-- The contribute_to_goal route (app.py lines 517-614) up to and including
the spillover loop. After validating the amount, existence and ownership it
calls Goal.contribute once. The while loop on line 545 runs only when the
remainder is positive, and its first statement is
goal_model.get_user_goals(request.user_id, exclude_archived=True)
(app.py line 546); Goal.get_user_goals (goal.py line 46) accepts only the
parameters (user_id, status=None), so that call raises TypeError, the
route's except handler (app.py line 613) returns the 500 error response,
and no further goal is credited. The reward bookkeeping that follows the
loop on the success path is not modelled (no claim depends on it); the
success outcome carries the final unapplied remainder, which is zero
whenever the loop was not entered. -/
def contribute_to_goal_route (db : List GoalDoc) (uid gid : Nat) (amount : ℚ)
    (now : ℤ) : List GoalDoc × ContributeOutcome :=
  if amount ≤ 0 then (db, ContributeOutcome.invalidAmount)
  else
    match find_goal db gid with
    | none => (db, ContributeOutcome.notFound)
    | some g =>
      if g.user_id ≠ uid then (db, ContributeOutcome.unauthorized)
      else
        let step := contribute_store db gid amount now
        if step.2.1 = false then (step.1, ContributeOutcome.notFound)
        else if 0 < step.2.2 then (step.1, ContributeOutcome.serverError)
        else (step.1, ContributeOutcome.ok step.2.2)

/-- C2: contributing 30 to goal A (active, remaining 10) with goal B (queued,
remaining 50) behind it completes A and promotes B to active, but the
spillover loop then raises TypeError (the exclude_archived keyword is not a
parameter of Goal.get_user_goals), so the route answers with the 500 error
and B is credited nothing instead of the claimed 20. -/
theorem spillover_cascade_crashes :
    let goalA : GoalDoc :=
      { id := 1, user_id := 7, target_amount := 10, current_amount := 0,
        total_levels := 10, current_level := 0, daily_target := 0,
        level_thresholds := [], status := GoalStatus.active, order := 0,
        completed_at := none }
    let goalB : GoalDoc :=
      { id := 2, user_id := 7, target_amount := 50, current_amount := 0,
        total_levels := 10, current_level := 0, daily_target := 0,
        level_thresholds := [], status := GoalStatus.queued, order := 1,
        completed_at := none }
    (contribute_to_goal_route [goalA, goalB] 7 1 30 100).2 =
      ContributeOutcome.serverError ∧
    (find_goal (contribute_to_goal_route [goalA, goalB] 7 1 30 100).1 1).map
      GoalDoc.status = some GoalStatus.completed ∧
    (find_goal (contribute_to_goal_route [goalA, goalB] 7 1 30 100).1 2).map
      GoalDoc.status = some GoalStatus.active ∧
    (find_goal (contribute_to_goal_route [goalA, goalB] 7 1 30 100).1 2).map
      GoalDoc.current_amount = some 0 := by
  norm_num [contribute_to_goal_route, contribute_store, contribute_goal,
    find_goal, update_goal_doc, activate_next_goal, next_goal_candidate,
    List.find?, List.filter]

/-- Python's round(x, 2) on an exact rational: round half to even at the
second decimal place. -/
def round_half_even (q : ℚ) : ℤ :=
  let fl := ⌊q⌋
  let fr := q - fl
  if fr < 1 / 2 then fl
  else if 1 / 2 < fr then fl + 1
  else if fl % 2 = 0 then fl else fl + 1

/-- Rounding a rational to two decimal places, as round(x, 2) does. -/
def py_round2 (q : ℚ) : ℚ := (round_half_even (q * 100) : ℚ) / 100

/-- The level-system triple produced by calculate_levels_with_ai. -/
structure LevelResult where
  total_levels : Nat
  level_thresholds : List ℚ
  daily_target : ℚ
deriving Repr

/-- The remaining-amount bucketing of ai_calculator.py lines 50-57. -/
def fallback_total_levels (remaining : ℚ) : Nat :=
  if remaining < 500 then 10
  else if remaining < 2000 then 20
  else if remaining < 5000 then 30
  else 50

/-- The fallback computation of calculate_levels_with_ai (ai_calculator.py
lines 29-64): remaining amount, horizon days (180 without a target date,
otherwise the day difference clamped below at 30), the bucketed level
count, evenly spaced thresholds current + remaining/totalLevels * i for
i = 1..totalLevels, and dailyTarget = round(remaining/days, 2). When the
Gemini call raises (advisory hook disabled or failing), the function
returns exactly this triple (lines 158-173); the Gemini call itself is
external I/O and is not modelled. -/
def calculate_levels_fallback (target current : ℚ) (target_date : Option ℤ)
    (today : ℤ) : LevelResult :=
  let remaining := target - current
  let days : ℤ :=
    match target_date with
    | none => 180
    | some d => max (d - today) 30
  let n := fallback_total_levels remaining
  let amount_per_level := remaining / (n : ℚ)
  { total_levels := n
    level_thresholds := (List.range' 1 n).map (fun i => current + amount_per_level * (i : ℚ))
    daily_target := py_round2 (remaining / (days : ℚ)) }

/-- C3 counterexample: for the fallback call with target 5000 and current 0
the remaining amount 5000 is not strictly below 5000, so the bucketing
yields 50 total levels, not the claimed 30. -/
theorem fallback_levels_5000_counterexample :
    (calculate_levels_fallback 5000 0 none 0).total_levels = 50 ∧
    (calculate_levels_fallback 5000 0 none 0).total_levels ≠ 30 := by
  norm_num [calculate_levels_fallback, fallback_total_levels]

/-- C3 amended: with the advisory hook disabled, computeLevels(5000, 0,
null, {}) yields totalLevels = 50 (the remaining amount 5000 falls in the
top bucket), dailyTarget = round(5000/180, 2) = 27.78, and 50 strictly
increasing thresholds ending at 5000. -/
theorem fallback_levels_5000_amended :
    (calculate_levels_fallback 5000 0 none 0).total_levels = 50 ∧
    (calculate_levels_fallback 5000 0 none 0).daily_target = 2778 / 100 ∧
    (calculate_levels_fallback 5000 0 none 0).level_thresholds.length = 50 ∧
    List.Chain' (· < ·) (calculate_levels_fallback 5000 0 none 0).level_thresholds ∧
    (calculate_levels_fallback 5000 0 none 0).level_thresholds.getLast? = some 5000 := by
  have hfloor : ⌊(25000 / 9 : ℚ)⌋ = 2777 := by
    rw [Int.floor_eq_iff]
    norm_num
  have hlist : (calculate_levels_fallback 5000 0 none 0).level_thresholds =
      [100, 200, 300, 400, 500, 600, 700, 800, 900, 1000, 1100, 1200, 1300,
       1400, 1500, 1600, 1700, 1800, 1900, 2000, 2100, 2200, 2300, 2400,
       2500, 2600, 2700, 2800, 2900, 3000, 3100, 3200, 3300, 3400, 3500,
       3600, 3700, 3800, 3900, 4000, 4100, 4200, 4300, 4400, 4500, 4600,
       4700, 4800, 4900, 5000] := by
    norm_num [calculate_levels_fallback, fallback_total_levels, List.range']
  refine ⟨?_, ?_, ?_, ?_, ?_⟩
  · norm_num [calculate_levels_fallback, fallback_total_levels]
  · norm_num [calculate_levels_fallback, fallback_total_levels, py_round2,
      round_half_even, hfloor]
  · rw [hlist]
    rfl
  · rw [hlist]
    norm_num [List.chain'_cons]
  · rw [hlist]
    norm_num [List.getLast?]

/-- Membership of a cell key in the placements mapping. The Python route
stores keys as str(index); indices are kept as naturals here, which is
faithful because str is injective on them and the code only ever compares
normalized keys (app.py lines 268-273). -/
def key_mem (ps : List (Nat × String)) (k : Nat) : Bool :=
  ps.any (fun e => e.1 == k)

/-- Python dict assignment placements[k] = item (app.py line 297): replace
the binding of an existing key in place, otherwise append the new binding
(insertion order is preserved, as for a Python dict). -/
def dict_set (ps : List (Nat × String)) (k : Nat) (v : String) :
    List (Nat × String) :=
  if key_mem ps k then ps.map (fun e => if e.1 == k then (k, v) else e)
  else ps ++ [(k, v)]

/-- Reading the item stored at a cell of the placements mapping. -/
def lookup_cell (ps : List (Nat × String)) (k : Nat) : Option String :=
  (ps.find? (fun e => e.1 == k)).map Prod.snd

/-- The helper _count_full_rows (app.py lines 264-274): the number of rows r
in the 5 by 5 grid all five of whose cell indices r*5+c are present. -/
def count_full_rows (ps : List (Nat × String)) : Nat :=
  ((List.range 5).filter
    (fun r => (List.range 5).all (fun c => key_mem ps (r * 5 + c)))).length

/-- The game fields of a user document touched by the pop-city route
(game_points, game_currency, pop_city_placements). -/
structure UserGameState where
  game_points : ℤ
  game_currency : ℤ
  pop_city_placements : List (Nat × String)
deriving DecidableEq, Repr

/-- The derived token balances returned by the pop-city route (app.py lines
310-314): veto tokens are the placement count integer-divided by four, and
approve tokens are the full-row count minus the approvals the user already
cast, clamped at zero. -/
structure PopCityTokens where
  veto_tokens : Nat
  approve_tokens : ℤ
deriving DecidableEq, Repr

/-- Error responses of the pop-city placement route (app.py lines 285-295). -/
inductive PlaceError where
  | notEnoughCoins
  | invalidIndex
  | invalidItem
deriving DecidableEq, Repr

/-- The pop_city_place route (app.py lines 277-335): reject when the user
holds fewer than 25 coins, when the index is outside [0, 25), or when the
item is empty; otherwise store the item at the cell (overwriting whatever
was there), debit 25 coins, credit 25 points, and return the recomputed
token balances. The parameter approve_used carries the value of
veto_request_model.count_approvals_by_user for this user (app.py line 313). -/
def pop_city_place (u : UserGameState) (index : ℤ) (item : String)
    (approve_used : Nat) : Except PlaceError (UserGameState × PopCityTokens) :=
  if u.game_currency < 25 then Except.error PlaceError.notEnoughCoins
  else if index < 0 ∨ 25 ≤ index then Except.error PlaceError.invalidIndex
  else if item = "" then Except.error PlaceError.invalidItem
  else
    let ps := dict_set u.pop_city_placements index.toNat item
    Except.ok
      ({ game_points := u.game_points + 25
         game_currency := u.game_currency - 25
         pop_city_placements := ps },
       { veto_tokens := ps.length / 4
         approve_tokens := max 0 ((count_full_rows ps : ℤ) - (approve_used : ℤ)) })

theorem find_map_replace (ps : List (Nat × String)) (k : Nat) (v : String)
    (hm : key_mem ps k = true) :
    (ps.map (fun e => if e.1 == k then (k, v) else e)).find? (fun e => e.1 == k) =
      some (k, v) := by
  induction ps with
  | nil => simp [key_mem] at hm
  | cons e rest ih =>
    by_cases hek : e.1 = k
    · simp [List.map_cons, List.find?_cons, hek]
    · have hbe : (e.1 == k) = false := by
        simpa using hek
      have hr : key_mem rest k = true := by
        simpa [key_mem, hbe] using hm
      simp only [List.map_cons, hbe, Bool.false_eq_true, if_false, List.find?_cons]
      simpa [hbe] using ih hr

theorem find_append_new (ps : List (Nat × String)) (k : Nat) (v : String)
    (hm : key_mem ps k = false) :
    (ps ++ [(k, v)]).find? (fun e => e.1 == k) = some (k, v) := by
  induction ps with
  | nil => simp [List.find?]
  | cons e rest ih =>
    have hbe : (e.1 == k) = false := by
      by_contra h
      simp only [Bool.not_eq_false, beq_iff_eq] at h
      simp [key_mem, h] at hm
    have hr : key_mem rest k = false := by
      simpa [key_mem, hbe] using hm
    simp only [List.cons_append, List.find?_cons, hbe]
    exact ih hr

/-- After a dict assignment the key reads back the assigned item. -/
theorem lookup_cell_dict_set (ps : List (Nat × String)) (k : Nat) (v : String) :
    lookup_cell (dict_set ps k v) k = some v := by
  by_cases hm : key_mem ps k
  · unfold lookup_cell dict_set
    rw [if_pos hm, find_map_replace ps k v hm]
    rfl
  · simp only [Bool.not_eq_true] at hm
    unfold lookup_cell dict_set
    rw [if_neg (by simp [hm]), find_append_new ps k v hm]
    rfl

/-- A dict assignment to an already-present key keeps the binding count. -/
theorem dict_set_length_of_mem (ps : List (Nat × String)) (k : Nat) (v : String)
    (hm : key_mem ps k = true) :
    (dict_set ps k v).length = ps.length := by
  simp [dict_set, hm]

/-- A dict assignment to a fresh key appends the binding. -/
theorem dict_set_fresh (ps : List (Nat × String)) (k : Nat) (v : String)
    (hm : key_mem ps k = false) : dict_set ps k v = ps ++ [(k, v)] := by
  simp [dict_set, hm]

@[simp] theorem dict_set_nil (k : Nat) (v : String) : dict_set [] k v = [(k, v)] := rfl

/-- Successful branch of the pop-city placement route: with enough coins, a
valid index and a non-empty item the route stores the item, moves 25 coins
into 25 points, and reports the recomputed token balances. -/
theorem pop_city_place_ok (u : UserGameState) (index : ℤ) (item : String)
    (used : Nat) (hc : 25 ≤ u.game_currency) (h0 : 0 ≤ index) (h25 : index < 25)
    (hitem : item ≠ "") :
    pop_city_place u index item used =
      Except.ok
        ({ game_points := u.game_points + 25
           game_currency := u.game_currency - 25
           pop_city_placements := dict_set u.pop_city_placements index.toNat item },
         { veto_tokens := (dict_set u.pop_city_placements index.toNat item).length / 4
           approve_tokens :=
             max 0 ((count_full_rows (dict_set u.pop_city_placements index.toNat item) : ℤ) -
               (used : ℤ)) }) := by
  unfold pop_city_place
  rw [if_neg (by omega), if_neg (by omega), if_neg hitem]

/-- C5 counterexample: with cell 0 already holding "tree", placing "rock" on
cell 0 is neither rejected nor a no-op: the route succeeds, charges the 25
coins, and the stored item becomes "rock" (app.py line 297 assigns the cell
unconditionally). -/
theorem place_occupied_overwritten_counterexample :
    let u : UserGameState :=
      { game_points := 0, game_currency := 25, pop_city_placements := [(0, "tree")] }
    lookup_cell u.pop_city_placements 0 = some "tree" ∧
    pop_city_place u 0 "rock" 0 =
      Except.ok
        ({ game_points := 25, game_currency := 0,
           pop_city_placements := [(0, "rock")] },
         { veto_tokens := 0, approve_tokens := 0 }) ∧
    lookup_cell [(0, "rock")] 0 ≠ some "tree" := by
  refine ⟨rfl, ?_, by decide⟩
  rw [pop_city_place_ok _ 0 "rock" 0 (by decide) (by decide) (by decide) (by decide)]
  rfl

/-- C5 amended: a place call on an already-filled cell with sufficient coins,
a valid index and a non-empty item is accepted like any other placement:
it debits 25 coins, credits 25 points, overwrites the stored item of that
cell with the new one, and leaves the placement count unchanged. -/
theorem place_occupied_succeeds_and_overwrites (u : UserGameState) (index : ℤ)
    (item : String) (used : Nat)
    (hocc : key_mem u.pop_city_placements index.toNat = true)
    (hc : 25 ≤ u.game_currency) (h0 : 0 ≤ index) (h25 : index < 25)
    (hitem : item ≠ "") :
    pop_city_place u index item used =
      Except.ok
        ({ game_points := u.game_points + 25
           game_currency := u.game_currency - 25
           pop_city_placements := dict_set u.pop_city_placements index.toNat item },
         { veto_tokens := u.pop_city_placements.length / 4
           approve_tokens :=
             max 0 ((count_full_rows (dict_set u.pop_city_placements index.toNat item) : ℤ) -
               (used : ℤ)) }) ∧
    lookup_cell (dict_set u.pop_city_placements index.toNat item) index.toNat = some item ∧
    (dict_set u.pop_city_placements index.toNat item).length = u.pop_city_placements.length := by
  have hlen := dict_set_length_of_mem u.pop_city_placements index.toNat item hocc
  refine ⟨?_, lookup_cell_dict_set _ _ _, hlen⟩
  rw [pop_city_place_ok u index item used hc h0 h25 hitem, hlen]

/-- Witness for the amended C5 at a concrete occupied cell. -/
theorem place_occupied_succeeds_and_overwrites_witness :
    pop_city_place
        { game_points := 0, game_currency := 25, pop_city_placements := [(0, "tree")] }
        0 "rock" 0 =
      Except.ok
        ({ game_points := 0 + 25, game_currency := 25 - 25,
           pop_city_placements := dict_set [(0, "tree")] (Int.toNat 0) "rock" },
         { veto_tokens := [(0, "tree")].length / 4
           approve_tokens :=
             max 0 ((count_full_rows (dict_set [(0, "tree")] (Int.toNat 0) "rock") : ℤ) -
               ((0 : Nat) : ℤ)) }) ∧
    lookup_cell (dict_set [(0, "tree")] (Int.toNat 0) "rock") (Int.toNat 0) = some "rock" ∧
    (dict_set [(0, "tree")] (Int.toNat 0) "rock").length = [(0, "tree")].length :=
  place_occupied_succeeds_and_overwrites
    { game_points := 0, game_currency := 25, pop_city_placements := [(0, "tree")] }
    0 "rock" 0 (by decide) (by decide) (by decide) (by decide) (by decide)

/-- Four placements at pairwise distinct cells can never fill a row, since a
full row needs five distinct cells. -/
theorem count_full_rows_of_four (i1 i2 i3 i4 : Nat) (v1 v2 v3 v4 : String) :
    count_full_rows [(i1, v1), (i2, v2), (i3, v3), (i4, v4)] = 0 := by
  rw [count_full_rows, List.length_eq_zero, List.filter_eq_nil_iff]
  intro r hr hall
  simp only [List.all_eq_true, List.mem_range] at hall
  have h0 := hall 0 (by norm_num)
  have h1 := hall 1 (by norm_num)
  have h2 := hall 2 (by norm_num)
  have h3 := hall 3 (by norm_num)
  have h4 := hall 4 (by norm_num)
  simp only [key_mem, List.any_cons, List.any_nil, Bool.or_eq_true, beq_iff_eq,
    Bool.or_false] at h0 h1 h2 h3 h4
  omega

/-- C6: starting from an empty grid with no approvals consumed and enough
coins, four placements at pairwise distinct valid cells (which can never
complete a row) leave the fourth response with one veto-request token
(4 integer-divided by 4) and zero approve tokens (no full row, none
consumed). -/
theorem four_distinct_places_token_balances (c : ℤ) (i1 i2 i3 i4 : Nat)
    (v1 v2 v3 v4 : String) (hc : 100 ≤ c)
    (hl1 : i1 < 25) (hl2 : i2 < 25) (hl3 : i3 < 25) (hl4 : i4 < 25)
    (hv1 : v1 ≠ "") (hv2 : v2 ≠ "") (hv3 : v3 ≠ "") (hv4 : v4 ≠ "")
    (h12 : i1 ≠ i2) (h13 : i1 ≠ i3) (h14 : i1 ≠ i4)
    (h23 : i2 ≠ i3) (h24 : i2 ≠ i4) (h34 : i3 ≠ i4) :
    (pop_city_place { game_points := 0, game_currency := c, pop_city_placements := [] }
        (i1 : ℤ) v1 0).bind
      (fun s1 => (pop_city_place s1.1 (i2 : ℤ) v2 0).bind
        (fun s2 => (pop_city_place s2.1 (i3 : ℤ) v3 0).bind
          (fun s3 => (pop_city_place s3.1 (i4 : ℤ) v4 0).map (fun s4 => s4.2)))) =
      Except.ok { veto_tokens := 1, approve_tokens := 0 } := by
  have cast1 : ((i1 : ℤ)).toNat = i1 := Int.toNat_natCast i1
  have cast2 : ((i2 : ℤ)).toNat = i2 := Int.toNat_natCast i2
  have cast3 : ((i3 : ℤ)).toNat = i3 := Int.toNat_natCast i3
  have cast4 : ((i4 : ℤ)).toNat = i4 := Int.toNat_natCast i4
  rw [pop_city_place_ok _ _ _ _ (by show (25 : ℤ) ≤ c; omega) (by positivity)
    (by exact_mod_cast hl1) hv1]
  simp only [Except.bind, cast1, dict_set_nil]
  rw [pop_city_place_ok _ _ _ _ (by show (25 : ℤ) ≤ c - 25; omega) (by positivity)
    (by exact_mod_cast hl2) hv2]
  simp only [Except.bind, cast2]
  rw [dict_set_fresh _ _ _ (by simp [key_mem, h12])]
  rw [pop_city_place_ok _ _ _ _ (by show (25 : ℤ) ≤ c - 25 - 25; omega) (by positivity)
    (by exact_mod_cast hl3) hv3]
  simp only [Except.bind, cast3]
  rw [dict_set_fresh _ _ _ (by simp [key_mem, h13, h23])]
  rw [pop_city_place_ok _ _ _ _ (by show (25 : ℤ) ≤ c - 25 - 25 - 25; omega) (by positivity)
    (by exact_mod_cast hl4) hv4]
  simp only [Except.map, cast4]
  rw [dict_set_fresh _ _ _ (by simp [key_mem, h14, h24, h34])]
  simp only [List.nil_append, List.cons_append, List.append_nil]
  rw [count_full_rows_of_four]
  norm_num

/-- Witness for C6 at cells 0, 1, 2, 3 with 100 coins. -/
theorem four_distinct_places_token_balances_witness :
    (pop_city_place { game_points := 0, game_currency := 100, pop_city_placements := [] }
        ((0 : Nat) : ℤ) "a" 0).bind
      (fun s1 => (pop_city_place s1.1 ((1 : Nat) : ℤ) "b" 0).bind
        (fun s2 => (pop_city_place s2.1 ((2 : Nat) : ℤ) "c" 0).bind
          (fun s3 => (pop_city_place s3.1 ((3 : Nat) : ℤ) "d" 0).map (fun s4 => s4.2)))) =
      Except.ok { veto_tokens := 1, approve_tokens := 0 } :=
  four_distinct_places_token_balances 100 0 1 2 3 "a" "b" "c" "d" (by norm_num)
    (by norm_num) (by norm_num) (by norm_num) (by norm_num)
    (by decide) (by decide) (by decide) (by decide)
    (by decide) (by decide) (by decide) (by decide) (by decide) (by decide)

/-- Verdict of a vote on a veto request (spec section 3). -/
inductive Verdict where
  | approve
  | veto
deriving DecidableEq, Repr

/-- One entry of a veto request's ordered vote list. -/
structure VetoVote where
  userId : Nat
  vote : Verdict
deriving DecidableEq, Repr

/-- Status of a veto request (spec section 3). -/
inductive VetoStatus where
  | pending
  | approved
  | rejected
deriving DecidableEq, Repr

/-- One document of the veto_requests collection, with the fields the vote
route reads (app.py lines 787-806); item, amount and reason are not
consulted by any modelled operation and are omitted. -/
structure VetoRequestDoc where
  id : Nat
  user_id : Nat
  votes : List VetoVote
  status : VetoStatus
deriving DecidableEq, Repr

/-- Modelled from the spec: models/veto_request.py (class VetoRequest,
method count_approvals_by_user, called at app.py lines 235, 313 and 798) is
not under src/. Spec sections 4.4 and 4.5 describe the quantity as the
approvals already cast by this voter across all requests. -/
def count_approvals_by_user (reqs : List VetoRequestDoc) (uid : Nat) : Nat :=
  (reqs.map (fun r =>
    (r.votes.filter (fun v => v.userId == uid && v.vote == Verdict.approve)).length)).sum

/-- Modelled from the spec: models/veto_request.py (class VetoRequest,
method add_vote, called at app.py line 803) is not under src/. Spec section
4.5: on a pending request the pair (voter, verdict) is appended to the vote
list; a veto verdict immediately sets the status to rejected regardless of
prior votes, an approve verdict leaves the status as it was; on an already
decided request the vote is refused, which the route then reports the same
way as a missing document. -/
def add_vote (r : VetoRequestDoc) (voter : Nat) (verdict : Verdict) :
    Option VetoRequestDoc :=
  if r.status ≠ VetoStatus.pending then none
  else
    some { r with
      votes := r.votes ++ [{ userId := voter, vote := verdict }]
      status := if verdict = Verdict.veto then VetoStatus.rejected else r.status }

/-- Lookup of a veto request by id (VetoRequest.get_by_id as used at app.py
line 787). -/
def find_veto_request (reqs : List VetoRequestDoc) (rid : Nat) :
    Option VetoRequestDoc :=
  reqs.find? (fun r => r.id == rid)

/-- Outcome of the vote route (app.py lines 778-813): a malformed vote, a
missing request, a vote on one's own request, a missing approve token, or
success carrying whether the request is now rejected. -/
inductive VoteOutcome where
  | badVote
  | notFound
  | selfVote
  | noTokens
  | ok (rejected : Bool)
deriving DecidableEq, Repr

/-- The vote_veto_request route (app.py lines 778-813): validate the vote
string, look the request up, forbid voting on one's own request, and for an
approve vote require one available token (full rows of the voter's grid
minus the approvals the voter already cast, computed at lines 793-799)
before recording the vote; the store is updated with the document add_vote
returns. The placements argument is the acting voter's
pop_city_placements mapping. -/
def vote_veto_request (placements : List (Nat × String))
    (reqs : List VetoRequestDoc) (rid voter : Nat) (vote : String) :
    VoteOutcome × List VetoRequestDoc :=
  if vote ≠ "approve" ∧ vote ≠ "veto" then (VoteOutcome.badVote, reqs)
  else
    match find_veto_request reqs rid with
    | none => (VoteOutcome.notFound, reqs)
    | some doc =>
      if doc.user_id = voter then (VoteOutcome.selfVote, reqs)
      else if vote = "approve" ∧
          (count_full_rows placements : ℤ) - (count_approvals_by_user reqs voter : ℤ) < 1 then
        (VoteOutcome.noTokens, reqs)
      else
        match add_vote doc voter (if vote = "approve" then Verdict.approve else Verdict.veto) with
        | none => (VoteOutcome.notFound, reqs)
        | some upd =>
          (VoteOutcome.ok (upd.status = VetoStatus.rejected),
           reqs.map (fun r => if r.id == rid then upd else r))

/-- Replacing the document that a lookup returned leaves the replacement
visible under the same id. -/
theorem find_update_request (reqs : List VetoRequestDoc) (rid : Nat)
    (doc upd : VetoRequestDoc) (hfind : find_veto_request reqs rid = some doc)
    (hid : upd.id = rid) :
    find_veto_request (reqs.map (fun r => if r.id == rid then upd else r)) rid =
      some upd := by
  induction reqs with
  | nil => simp [find_veto_request] at hfind
  | cons r rest ih =>
    by_cases h : r.id = rid
    · simp [find_veto_request, List.map_cons, List.find?_cons, h, hid]
    · have hb : (r.id == rid) = false := by simpa using h
      have hrest : find_veto_request rest rid = some doc := by
        simpa [find_veto_request, List.find?_cons, hb] using hfind
      have ih2 := ih hrest
      unfold find_veto_request at ih2 ⊢
      simp only [List.map_cons, List.find?_cons, hb, Bool.false_eq_true, if_false]
      exact ih2

/-- A vote aimed at a request that is no longer pending leaves the store
untouched: every branch of the route either fails outright or is refused by
add_vote. -/
theorem vote_on_decided_unchanged (placements : List (Nat × String))
    (reqs : List VetoRequestDoc) (rid voter : Nat) (vote : String)
    (doc : VetoRequestDoc) (hfind : find_veto_request reqs rid = some doc)
    (hdec : doc.status ≠ VetoStatus.pending) :
    (vote_veto_request placements reqs rid voter vote).2 = reqs := by
  unfold vote_veto_request
  by_cases hv : vote ≠ "approve" ∧ vote ≠ "veto"
  · rw [if_pos hv]
  · rw [if_neg hv, hfind]
    dsimp only
    by_cases hs : doc.user_id = voter
    · rw [if_pos hs]
    · rw [if_neg hs]
      by_cases ht : vote = "approve" ∧
          (count_full_rows placements : ℤ) - (count_approvals_by_user reqs voter : ℤ) < 1
      · rw [if_pos ht]
      · rw [if_neg ht]
        have : add_vote doc voter
            (if vote = "approve" then Verdict.approve else Verdict.veto) = none := by
          simp [add_vote, hdec]
        rw [this]

/-- C7: on a pending request, a single veto vote by a non-requester
immediately turns the status to rejected — whatever votes were already
recorded — and irreversibly so: any later vote on the same request leaves
the store untouched. -/
theorem single_veto_rejects_pending (placements : List (Nat × String))
    (reqs : List VetoRequestDoc) (rid voter : Nat) (doc : VetoRequestDoc)
    (hfind : find_veto_request reqs rid = some doc)
    (hpend : doc.status = VetoStatus.pending)
    (hself : doc.user_id ≠ voter) :
    (vote_veto_request placements reqs rid voter "veto").1 = VoteOutcome.ok true ∧
    find_veto_request (vote_veto_request placements reqs rid voter "veto").2 rid =
      some { doc with
        votes := doc.votes ++ [{ userId := voter, vote := Verdict.veto }]
        status := VetoStatus.rejected } ∧
    (∀ placements2 voter2 vote2,
      (vote_veto_request placements2 (vote_veto_request placements reqs rid voter "veto").2
        rid voter2 vote2).2 =
      (vote_veto_request placements reqs rid voter "veto").2) := by
  have hfind' : reqs.find? (fun r => r.id == rid) = some doc := hfind
  have hid : doc.id = rid := by
    have h := List.find?_some hfind'
    simpa using h
  have hveto : add_vote doc voter Verdict.veto =
      some { doc with
        votes := doc.votes ++ [{ userId := voter, vote := Verdict.veto }]
        status := VetoStatus.rejected } := by
    simp [add_vote, hpend]
  have hroute : vote_veto_request placements reqs rid voter "veto" =
      (VoteOutcome.ok true,
       reqs.map (fun r => if r.id == rid then
         { doc with
           votes := doc.votes ++ [{ userId := voter, vote := Verdict.veto }]
           status := VetoStatus.rejected } else r)) := by
    unfold vote_veto_request
    rw [if_neg (by simp), hfind]
    dsimp only
    rw [if_neg hself, if_neg (by simp), if_neg (by decide), hveto]
    rfl
  have hfound := find_update_request reqs rid doc
    { doc with
      votes := doc.votes ++ [{ userId := voter, vote := Verdict.veto }]
      status := VetoStatus.rejected } hfind hid
  refine ⟨by rw [hroute], ?_, ?_⟩
  · rw [hroute]
    exact hfound
  · intro placements2 voter2 vote2
    rw [hroute]
    exact vote_on_decided_unchanged placements2 _ rid voter2 vote2 _ hfound (by simp)

/-- Witness for C7: a pending request by user 2 that already carries an
approve vote from user 3 is vetoed by user 4. -/
theorem single_veto_rejects_pending_witness :
    (vote_veto_request []
      [{ id := 1, user_id := 2, votes := [{ userId := 3, vote := Verdict.approve }],
         status := VetoStatus.pending }] 1 4 "veto").1 = VoteOutcome.ok true ∧
    find_veto_request
      (vote_veto_request []
        [{ id := 1, user_id := 2, votes := [{ userId := 3, vote := Verdict.approve }],
           status := VetoStatus.pending }] 1 4 "veto").2 1 =
      some { id := 1, user_id := 2,
             votes := [{ userId := 3, vote := Verdict.approve },
                       { userId := 4, vote := Verdict.veto }],
             status := VetoStatus.rejected } ∧
    (∀ placements2 voter2 vote2,
      (vote_veto_request placements2
        (vote_veto_request []
          [{ id := 1, user_id := 2, votes := [{ userId := 3, vote := Verdict.approve }],
             status := VetoStatus.pending }] 1 4 "veto").2 1 voter2 vote2).2 =
      (vote_veto_request []
        [{ id := 1, user_id := 2, votes := [{ userId := 3, vote := Verdict.approve }],
           status := VetoStatus.pending }] 1 4 "veto").2) :=
  single_veto_rejects_pending []
    [{ id := 1, user_id := 2, votes := [{ userId := 3, vote := Verdict.approve }],
       status := VetoStatus.pending }] 1 4
    { id := 1, user_id := 2, votes := [{ userId := 3, vote := Verdict.approve }],
      status := VetoStatus.pending } rfl rfl (by decide)

/-- C8: an approve vote by a non-requester on a pending request fails with
the no-token error exactly when the voter's full-row count minus the
approvals the voter already cast across all requests is below one; when the
token is available the approve vote is appended and the status stays
pending. -/
theorem approve_vote_token_gate (placements : List (Nat × String))
    (reqs : List VetoRequestDoc) (rid voter : Nat) (doc : VetoRequestDoc)
    (hfind : find_veto_request reqs rid = some doc)
    (hpend : doc.status = VetoStatus.pending)
    (hself : doc.user_id ≠ voter) :
    ((count_full_rows placements : ℤ) - (count_approvals_by_user reqs voter : ℤ) < 1 →
      vote_veto_request placements reqs rid voter "approve" =
        (VoteOutcome.noTokens, reqs)) ∧
    (1 ≤ (count_full_rows placements : ℤ) - (count_approvals_by_user reqs voter : ℤ) →
      (vote_veto_request placements reqs rid voter "approve").1 = VoteOutcome.ok false ∧
      find_veto_request (vote_veto_request placements reqs rid voter "approve").2 rid =
        some { doc with
          votes := doc.votes ++ [{ userId := voter, vote := Verdict.approve }]
          status := VetoStatus.pending }) := by
  have hfind' : reqs.find? (fun r => r.id == rid) = some doc := hfind
  have hid : doc.id = rid := by
    have h := List.find?_some hfind'
    simpa using h
  constructor
  · intro hlt
    unfold vote_veto_request
    rw [if_neg (by simp), hfind]
    dsimp only
    rw [if_neg hself, if_pos ⟨rfl, hlt⟩]
  · intro hge
    have happrove : add_vote doc voter Verdict.approve =
        some { doc with
          votes := doc.votes ++ [{ userId := voter, vote := Verdict.approve }]
          status := VetoStatus.pending } := by
      simp [add_vote, hpend]
    have hroute : vote_veto_request placements reqs rid voter "approve" =
        (VoteOutcome.ok false,
         reqs.map (fun r => if r.id == rid then
           { doc with
             votes := doc.votes ++ [{ userId := voter, vote := Verdict.approve }]
             status := VetoStatus.pending } else r)) := by
      unfold vote_veto_request
      rw [if_neg (by simp), hfind]
      dsimp only
      rw [if_neg hself, if_neg (fun h => absurd h.2 (not_lt.mpr hge)),
        if_pos rfl, happrove]
      rfl
    refine ⟨by rw [hroute], ?_⟩
    rw [hroute]
    exact find_update_request reqs rid doc
      { doc with
        votes := doc.votes ++ [{ userId := voter, vote := Verdict.approve }]
        status := VetoStatus.pending } hfind hid

/-- Witness for C8: user 3 holds one full row (cells 0-4) and has cast no
approval yet, so the approve vote on user 2's pending request succeeds and
the request stays pending with the vote appended. -/
theorem approve_vote_token_gate_witness :
    1 ≤ (count_full_rows [(0, "a"), (1, "b"), (2, "c"), (3, "d"), (4, "e")] : ℤ) -
      (count_approvals_by_user
        [{ id := 1, user_id := 2, votes := [], status := VetoStatus.pending }] 3 : ℤ) ∧
    (vote_veto_request [(0, "a"), (1, "b"), (2, "c"), (3, "d"), (4, "e")]
      [{ id := 1, user_id := 2, votes := [], status := VetoStatus.pending }]
      1 3 "approve").1 = VoteOutcome.ok false ∧
    find_veto_request
      (vote_veto_request [(0, "a"), (1, "b"), (2, "c"), (3, "d"), (4, "e")]
        [{ id := 1, user_id := 2, votes := [], status := VetoStatus.pending }]
        1 3 "approve").2 1 =
      some { id := 1, user_id := 2, votes := [{ userId := 3, vote := Verdict.approve }],
             status := VetoStatus.pending } :=
  ⟨by decide,
   (approve_vote_token_gate [(0, "a"), (1, "b"), (2, "c"), (3, "d"), (4, "e")]
      [{ id := 1, user_id := 2, votes := [], status := VetoStatus.pending }] 1 3
      { id := 1, user_id := 2, votes := [], status := VetoStatus.pending }
      rfl rfl (by decide)).2 (by decide)⟩

/-- The per-user streak state kept by the Scoreboard (pts.py lines 96-99):
the day of the last counted activity, when any, and the current streak. -/
structure StreakState where
  last_activity : Option ℤ
  streak : Nat
deriving DecidableEq, Repr

/-- Scoreboard.update_streak (pts.py lines 379-411), restricted to the
streak bookkeeping (the milestone bonus crediting further down changes
points, not the streak): a user with no recorded activity starts a streak
of 1; an activity on the same day as the last one changes nothing; one on
the day right after the last increments the streak; any other gap resets it
to 1. -/
def update_streak (s : StreakState) (today : ℤ) : StreakState :=
  match s.last_activity with
  | none => { last_activity := some today, streak := 1 }
  | some last =>
    if last = today then s
    else if last = today - 1 then { last_activity := some today, streak := s.streak + 1 }
    else { last_activity := some today, streak := 1 }

/-- The game-statistics fields of a user document (models/user.py lines
27-31). -/
structure UserStatsDoc where
  game_points : ℤ
  game_currency : ℤ
  current_streak : Nat
  longest_streak : Nat
  last_activity_date : Option ℤ
deriving DecidableEq, Repr

/-- The users-collection write of Scoreboard._save_to_db (pts.py lines
136-148): it sets game_points, game_currency and current_streak and writes
no other counter — in particular not longest_streak. -/
def save_scoreboard_to_user (u : UserStatsDoc) (points coins : ℤ)
    (streak : Nat) : UserStatsDoc :=
  { u with game_points := points, game_currency := coins, current_streak := streak }

/-- User.update_game_stats (models/user.py lines 64-83): increment points
and currency; when a streak value is passed, overwrite current_streak and
last_activity_date. longest_streak is never written. -/
def update_game_stats (u : UserStatsDoc) (points currency : ℤ)
    (streak : Option Nat) (now : ℤ) : UserStatsDoc :=
  let u1 := { u with
    game_points := u.game_points + points
    game_currency := u.game_currency + currency }
  match streak with
  | none => u1
  | some s => { u1 with current_streak := s, last_activity_date := some now }

/-- C9 counterexample: an activity on the day after the previous one raises
the streak from 1 to 2, yet the persisted longest_streak stays 0 — not
max(longest_streak, streak) = 2. No code path in the repository ever writes
longest_streak after user creation. -/
theorem longest_streak_never_updated_counterexample :
    (update_streak { last_activity := some 9, streak := 1 } 10).streak = 2 ∧
    (save_scoreboard_to_user
      { game_points := 0, game_currency := 0, current_streak := 1,
        longest_streak := 0, last_activity_date := some 9 }
      0 0 (update_streak { last_activity := some 9, streak := 1 } 10).streak).current_streak = 2 ∧
    (save_scoreboard_to_user
      { game_points := 0, game_currency := 0, current_streak := 1,
        longest_streak := 0, last_activity_date := some 9 }
      0 0 (update_streak { last_activity := some 9, streak := 1 } 10).streak).longest_streak = 0 ∧
    (save_scoreboard_to_user
      { game_points := 0, game_currency := 0, current_streak := 1,
        longest_streak := 0, last_activity_date := some 9 }
      0 0 (update_streak { last_activity := some 9, streak := 1 } 10).streak).longest_streak ≠
      max 0 (update_streak { last_activity := some 9, streak := 1 } 10).streak := by
  decide

/-- C9 amended: the streak comparison behaves as claimed — same day leaves
the streak unchanged, exactly one day earlier increments it, any other gap
(or no prior activity) resets it to 1 — but longest_streak is not updated
to max(longest_streak, streak): neither the scoreboard save nor
User.update_game_stats ever writes it, so it keeps its prior value. -/
theorem streak_update_and_longest_frame (last : ℤ) (k : Nat) (today : ℤ)
    (u : UserStatsDoc) (points coins : ℤ) (k2 : Nat) :
    (update_streak { last_activity := some today, streak := k } today).streak = k ∧
    (update_streak { last_activity := some (today - 1), streak := k } today).streak = k + 1 ∧
    (last ≠ today → last ≠ today - 1 →
      (update_streak { last_activity := some last, streak := k } today).streak = 1) ∧
    (update_streak { last_activity := none, streak := k } today).streak = 1 ∧
    (save_scoreboard_to_user u points coins k2).longest_streak = u.longest_streak ∧
    (∀ str now, (update_game_stats u points coins str now).longest_streak = u.longest_streak) := by
  refine ⟨by simp [update_streak], ?_, ?_, rfl, rfl, ?_⟩
  · unfold update_streak
    dsimp only
    rw [if_neg (by omega), if_pos rfl]
  · intro h1 h2
    simp [update_streak, h1, h2]
  · intro str now
    cases str <;> rfl

/-- Witness for the amended C9 at concrete days 5, 9, 10. -/
theorem streak_update_and_longest_frame_witness :
    (update_streak { last_activity := some 5, streak := 3 } 10).streak = 1 ∧
    (update_streak { last_activity := some 10, streak := 3 } 10).streak = 3 ∧
    (update_streak { last_activity := some 9, streak := 3 } 10).streak = 3 + 1 :=
  ⟨(streak_update_and_longest_frame 5 3 10
      { game_points := 0, game_currency := 0, current_streak := 0,
        longest_streak := 0, last_activity_date := none } 0 0 0).2.2.1
      (by decide) (by decide),
   (streak_update_and_longest_frame 5 3 10
      { game_points := 0, game_currency := 0, current_streak := 0,
        longest_streak := 0, last_activity_date := none } 0 0 0).1,
   (streak_update_and_longest_frame 5 3 10
      { game_points := 0, game_currency := 0, current_streak := 0,
        longest_streak := 0, last_activity_date := none } 0 0 0).2.1⟩
